import Mathlib

/-!
Verification of the AG-UI streaming run-event protocol of this repository.

Producer side (`ag_ui_server.py`): the `/agent` endpoint extracts a user
message from the request body, and the `generate_events` generator emits the
run event sequence (RunStarted, TextMessageStart, TextMessageContent*,
TextMessageEnd, RunFinished, with RunError replacing the tail on failure).

Client side (`frontend.py`, `sendMessage`): a buffered line splitter
reassembles records from arbitrarily fragmented chunks, and a dispatch on the
record's `type` tag folds events into the finalized message list plus the
in-flight streaming text.

Python values are modelled by `PyVal` (strings, integers, string-keyed
dicts); JavaScript strings are modelled as `List Char` so that induction over
chunk boundaries is direct.
-/

namespace AgUi

/-- The closed set of run event variants (spec section 3). -/
inductive Event where
  | runStarted (threadId runId : String)
  | textMessageStart (messageId role : String)
  | textMessageContent (messageId delta : String)
  | textMessageEnd (messageId : String)
  | runFinished (threadId runId : String)
  | runError (message : String)
deriving DecidableEq, Repr

/-- Model of the Python values the query processor may return: strings,
integers, and string-keyed dicts (an association list; lookup takes the
first binding, and a well-formed Python dict has distinct keys). -/
inductive PyVal where
  | str (s : String)
  | int (n : Int)
  | dict (entries : List (String × PyVal))
deriving Repr

/-- Python dict lookup: `d[key]` / `d.get(key)`, first matching binding. -/
def dictGet (es : List (String × PyVal)) (key : String) : Option PyVal :=
  match es with
  | [] => none
  | (k, v) :: rest => if k = key then some v else dictGet rest key

mutual
/-- Python `repr` of a modelled value (used by `str` on containers).
String escaping inside `repr` is not modelled; keys and values in all
concrete inputs below are quote-free. -/
def pyRepr : PyVal → String
  | PyVal.str s => "'" ++ s ++ "'"
  | PyVal.int n => toString n
  | PyVal.dict es => "\x7b" ++ String.intercalate ", " (pyReprEntries es) ++ "\x7d"

/-- `repr` of the entries of a dict, in insertion order. -/
def pyReprEntries : List (String × PyVal) → List String
  | [] => []
  | (k, v) :: rest => ("'" ++ k ++ "': " ++ pyRepr v) :: pyReprEntries rest
end

/-- Python `str()` of a modelled value. -/
def pyStr : PyVal → String
  | PyVal.str s => s
  | PyVal.int n => toString n
  | PyVal.dict es => pyRepr (PyVal.dict es)

/-- JSON string escaping (the subset relevant to the model: quote,
backslash, newline). -/
def jsonEscapeChar (c : Char) : String :=
  if c = '"' then "\\\"" else if c = '\\' then "\\\\"
  else if c = '\n' then "\\n" else String.singleton c

/-- Escape a string for inclusion in a JSON document. -/
def jsonEscape (s : String) : String :=
  String.join (s.toList.map jsonEscapeChar)

/-- Indentation padding used by `json.dumps(..., indent=2)`. -/
def spaces (n : Nat) : String := String.mk (List.replicate n ' ')

mutual
/-- `json.dumps(v, indent=2)` at a given current indentation level. -/
def jsonDumpsVal : PyVal → Nat → String
  | PyVal.str s, _ => "\"" ++ jsonEscape s ++ "\""
  | PyVal.int n, _ => toString n
  | PyVal.dict [], _ => "\x7b\x7d"
  | PyVal.dict (e :: es), ind =>
      "\x7b\n" ++ String.intercalate ",\n" (jsonDumpsEntries (e :: es) (ind + 2))
        ++ "\n" ++ spaces ind ++ "\x7d"

/-- Serialized `"key": value` entries of a dict at a given indentation. -/
def jsonDumpsEntries : List (String × PyVal) → Nat → List String
  | [], _ => []
  | (k, v) :: rest, ind =>
      (spaces ind ++ "\"" ++ jsonEscape k ++ "\": " ++ jsonDumpsVal v ind)
        :: jsonDumpsEntries rest ind
end

/-- `json.dumps(result, indent=2)` from `ag_ui_server.py` line 112. -/
def jsonDumps (v : PyVal) : String := jsonDumpsVal v 0

/-- `result["summary"].get("summary", "No summary available")` from
`ag_ui_server.py` line 106 (the nested value, coerced to `str` by the
unconditional coercion on lines 117-118). -/
def summary_text (inner : List (String × PyVal)) : String :=
  match dictGet inner "summary" with
  | some v => pyStr v
  | none => "No summary available"

/-- Response-text derivation for a dict result, `ag_ui_server.py`
lines 105-112, composed with the unconditional string coercion of
lines 117-118. -/
def dict_response_text (es : List (String × PyVal)) : String :=
  match dictGet es "summary" with
  | some (PyVal.dict inner) => summary_text inner
  | some v => pyStr v
  | none =>
    match dictGet es "error" with
    | some e => "Error: " ++ pyStr e
    | none => jsonDumps (PyVal.dict es)

/-- Response-text derivation of `ag_ui_server.py` lines 103-118: dict
results go through the summary/error precedence, every other result is
`str(result)`; the final value is always a string. -/
def extract_response_text : PyVal → String
  | PyVal.dict es => dict_response_text es
  | v => pyStr v

/-- Response-text derivation as the spec words it (section 4.2 step 3,
read literally): a nested summary is used only when the structured summary
actually carries the nested field; a structured summary without it is not a
"flat summary field", so the precedence falls through to the error /
serialization cases. Stated for comparison with `extract_response_text`. -/
def spec_response_text : PyVal → String
  | PyVal.dict es =>
    (match dictGet es "summary" with
     | some (PyVal.dict inner) =>
        (match dictGet inner "summary" with
         | some v => pyStr v
         | none =>
            (match dictGet es "error" with
             | some e => "Error: " ++ pyStr e
             | none => jsonDumps (PyVal.dict es)))
     | some v => pyStr v
     | none =>
        (match dictGet es "error" with
         | some e => "Error: " ++ pyStr e
         | none => jsonDumps (PyVal.dict es)))
  | v => pyStr v

/-- Whitespace set of Python `str.split()` (the ASCII part of Python's
whitespace class: space, tab, newline, carriage return, vertical tab,
form feed). -/
def pyIsSpace (c : Char) : Bool :=
  c == ' ' || c == '\t' || c == '\n' || c == '\r' || c == '\x0b' || c == '\x0c'

/-- Split a character list at every separator, returning the list of
complete pieces (before each separator, left to right) paired with the
final piece after the last separator. `JavaScript`'s `s.split(sep)` is
`pieces ++ [lastPiece]`; the decoder keeps `lastPiece` as its buffer. -/
def splitRecords (p : Char → Bool) : List Char → List (List Char) × List Char
  | [] => ([], [])
  | c :: rest =>
    if p c then
      ([] :: (splitRecords p rest).1, (splitRecords p rest).2)
    else
      match (splitRecords p rest).1, (splitRecords p rest).2 with
      | [], last => ([], c :: last)
      | h :: t, last => ((c :: h) :: t, last)

/-- All pieces of a split, complete pieces then the final piece; this is
exactly `s.split(sep)` of Python/JavaScript (on a one-character separator
class). -/
def splitAll (p : Char → Bool) (s : List Char) : List (List Char) :=
  (splitRecords p s).1 ++ [(splitRecords p s).2]

/-- Python `response_text.split()` (`ag_ui_server.py` line 130): split on
whitespace runs and drop empty pieces. -/
def pySplit (text : String) : List String :=
  ((splitAll pyIsSpace text.toList).filter (fun l => !l.isEmpty)).map
    (fun l => String.mk l)

/-- The TextMessageContent events emitted by the word-streaming loop of
`ag_ui_server.py` lines 128-137: nothing when the text is empty, else one
event per token, in order, with delta `word + " "`. -/
def contentEvents (msgId text : String) : List Event :=
  if text = "" then []
  else (pySplit text).map (fun w => Event.textMessageContent msgId (w ++ " "))

/-- The full successful event sequence of `generate_events`
(`ag_ui_server.py` lines 94-150). The thread/run identifiers are passed
separately for the RunStarted and the RunFinished emission because the
source recomputes `body.get(...)` (with a fresh default) at each of the two
sites. -/
def producer_events (t1 r1 msgId text t2 r2 : String) : List Event :=
  Event.runStarted t1 r1 :: Event.textMessageStart msgId "assistant" ::
    (contentEvents msgId text ++ [Event.textMessageEnd msgId, Event.runFinished t2 r2])

/-- The event sequence of one run under the try/except of
`ag_ui_server.py` lines 92-157: with no fault, the full successful
sequence; a fault `(k, msg)` models an exception raised before the
`(k+1)`-th yield of the try block, which abandons the remaining yields and
emits exactly one RunError. (Realizable faults have `k` below the length
of the successful sequence, since no code runs after the final yield.) -/
def run_events (t1 r1 msgId text t2 r2 : String)
    (fault : Option (Nat × String)) : List Event :=
  match fault with
  | none => producer_events t1 r1 msgId text t2 r2
  | some (k, msg) => (producer_events t1 r1 msgId text t2 r2).take k ++ [Event.runError msg]

/-- The fields of the request body read by `generate_events`:
`body.get("thread_id", "default")` and `body.get("run_id", ...)`. -/
structure RequestBody where
  thread_id : Option String
  run_id : Option String

/-- `generate_events` of `ag_ui_server.py` lines 90-157 at the request
level: `u1` and `u2` are the `uuid.uuid4().hex[:8]` draws of the two
independent `body.get("run_id", f"run-...")` defaults (lines 97 and 149),
`um` the draw for the message id (line 121). -/
def generate_events (body : RequestBody) (u1 um u2 : String) (result : PyVal)
    (fault : Option (Nat × String)) : List Event :=
  run_events (body.thread_id.getD "default") (body.run_id.getD ("run-" ++ u1))
    ("msg-" ++ um) (extract_response_text result)
    (body.thread_id.getD "default") (body.run_id.getD ("run-" ++ u2)) fault

/-- One entry of the request's `messages` list as read by the endpoint:
`msg.get("role")` and `msg.get("content", "")`. -/
structure ReqMsg where
  role : String
  content : Option String
deriving DecidableEq, Repr

/-- The user-message extraction loop of `ag_ui_server.py` lines 74-79: scan
the list in order and take the content of the first entry whose role is
`"user"` (the loop breaks at the first match), defaulting missing content
to the empty string; `none` when no user-role entry exists. -/
def find_user_message : List ReqMsg → Option String
  | [] => none
  | m :: rest => if m.role = "user" then some (m.content.getD "") else find_user_message rest

/-- The request-validation check of `ag_ui_server.py` lines 81-82:
`if not user_message: raise HTTPException(400, ...)` — rejected when the
scan found nothing or found an empty (falsy) content. -/
def rejects_request (msgs : List ReqMsg) : Bool :=
  match find_user_message msgs with
  | none => true
  | some c => c = ""

/-- The newline separator of the client's `buffer.split('\n')`
(`frontend.py` line 62). -/
def isNl (c : Char) : Bool := c == '\n'

/-- One chunk arrival in the client's read loop (`frontend.py` lines
61-63): append the chunk to the buffer, split on newlines, keep the last
piece (`lines.pop() || ''`) as the new buffer and hand every other piece on
as a complete candidate record. State is (buffer, records handed on so
far). -/
def feedChunk (st : List Char × List (List Char)) (chunk : List Char) :
    List Char × List (List Char) :=
  ((splitRecords isNl (st.1 ++ chunk)).2,
    st.2 ++ (splitRecords isNl (st.1 ++ chunk)).1)

/-- Run the client decoder over a whole sequence of text chunks, starting
from an empty buffer (the buffer remaining at stream end is discarded, as
the source's loop exits on `done` without touching it). -/
def decodeStream (chunks : List (List Char)) : List Char × List (List Char) :=
  chunks.foldl feedChunk ([], [])

/-- The complete candidate records a stream of chunks produces. -/
def completeLines (chunks : List (List Char)) : List (List Char) :=
  (decodeStream chunks).2

/-- The `'data: '` marker tested by `line.startsWith('data: ')`
(`frontend.py` line 66). -/
def dataMarker : List Char := ['d', 'a', 't', 'a', ':', ' ']

/-- The payloads handed to `JSON.parse` (`frontend.py` lines 66-68): each
complete line carrying the marker, with the marker stripped
(`line.slice(6)`); other lines are discarded. -/
def dataRecords (chunks : List (List Char)) : List (List Char) :=
  (completeLines chunks).filterMap
    (fun line => if dataMarker.isPrefixOf line then some (line.drop 6) else none)

/-- A message id in the client state: a string from the wire or a
`Date.now()` timestamp fallback. -/
inductive JsId where
  | str (s : String)
  | num (n : Nat)
deriving DecidableEq, Repr

/-- One finalized chat message of the client (`frontend.py`):
`{ role, content, id }`. -/
structure ChatMsg where
  role : String
  content : String
  id : JsId
deriving DecidableEq, Repr

/-- The mutable state of `sendMessage`'s read loop (`frontend.py` lines
53-55 and the two React states it writes): the finalized message list, the
`assistantMessage` accumulation buffer, the captured `messageId`, and the
`currentStreamingMessage` display text. -/
structure ClientState where
  messages : List ChatMsg
  assistantMessage : String
  messageId : Option String
  currentStreaming : String
deriving DecidableEq, Repr

/-- A parsed wire record as the dispatch reads it (`frontend.py` lines
70-92): the `type` tag and the optional fields the handlers access. -/
structure EventData where
  type : String
  message_id : Option String
  messageId : Option String
  delta : Option String
  message : Option String
deriving DecidableEq, Repr

/-- JavaScript `a || b` on possibly-undefined strings (`frontend.py`
line 71): an absent or empty left operand falls through to the right. -/
def jsOr (a b : Option String) : Option String :=
  match a with
  | some s => if s = "" then b else some s
  | none => b

/-- JavaScript string concatenation with a possibly-undefined operand
(`assistantMessage += eventData.delta` stringifies an absent field as
`"undefined"`). -/
def jsConcat (s : String) (v : Option String) : String :=
  s ++ v.getD "undefined"

/-- The event dispatch of `sendMessage` (`frontend.py` lines 70-92), one
parsed record applied to the loop state; `now` stands for `Date.now()` at
this step. TEXT_MESSAGE_CONTENT and TEXT_MESSAGE_CHUNK append the delta to
the accumulation buffer and update the streaming display (no messageId
check); TEXT_MESSAGE_END finalizes the buffer; RUN_ERROR appends a
synthetic assistant message and leaves every other component of the state
as it was; unknown tags are ignored. -/
def sendMessageStep (now : Nat) (st : ClientState) (ed : EventData) : ClientState :=
  if ed.type = "TEXT_MESSAGE_START" then
    { st with messageId := jsOr ed.message_id ed.messageId }
  else if ed.type = "TEXT_MESSAGE_CONTENT" then
    { st with assistantMessage := jsConcat st.assistantMessage ed.delta,
              currentStreaming := jsConcat st.assistantMessage ed.delta }
  else if ed.type = "TEXT_MESSAGE_CHUNK" then
    { st with assistantMessage := jsConcat st.assistantMessage ed.delta,
              currentStreaming := jsConcat st.assistantMessage ed.delta }
  else if ed.type = "TEXT_MESSAGE_END" then
    { st with
        messages := st.messages ++
          [{ role := "assistant", content := st.assistantMessage,
             id := match st.messageId with
                   | some s => if s = "" then JsId.num now else JsId.str s
                   | none => JsId.num now }],
        currentStreaming := "" }
  else if ed.type = "RUN_ERROR" then
    { st with
        messages := st.messages ++
          [{ role := "assistant",
             content := "Error: " ++ ed.message.getD "undefined",
             id := JsId.num now }] }
  else st

/-! ## Theorems

Concrete `ClientState` values below are written with the anonymous
constructor, fields in order: messages, assistantMessage, messageId,
currentStreaming. `EventData` fields in order: type, message_id, messageId,
delta, message. `ChatMsg` fields: role, content, id. -/

/-- Claim C5 counterexample: a RunError arriving in the Streaming state
(partial buffer "par", open message "m1") does append the single synthetic
assistant message "Error: boom", but the in-flight streaming state is NOT
cleared — the streaming display and the accumulation buffer still hold
"par" afterwards, where the claim requires all in-flight state cleared. -/
theorem claim5_counterexample :
    (sendMessageStep 7 ⟨[], "par", some "m1", "par"⟩
        ⟨"RUN_ERROR", none, none, none, some "boom"⟩).messages =
      [⟨"assistant", "Error: boom", JsId.num 7⟩] ∧
    (sendMessageStep 7 ⟨[], "par", some "m1", "par"⟩
        ⟨"RUN_ERROR", none, none, none, some "boom"⟩).currentStreaming = "par" ∧
    (sendMessageStep 7 ⟨[], "par", some "m1", "par"⟩
        ⟨"RUN_ERROR", none, none, none, some "boom"⟩).assistantMessage = "par" ∧
    (sendMessageStep 7 ⟨[], "par", some "m1", "par"⟩
        ⟨"RUN_ERROR", none, none, none, some "boom"⟩).messageId = some "m1" ∧
    ("par" : String) ≠ "" :=
  ⟨rfl, rfl, rfl, rfl, by decide⟩

/-- Claim C5 as amended: on a RunError the accumulator finalizes nothing
from the partial buffer and appends exactly one synthetic assistant-role
message "Error: " followed by the event's message; the in-flight state
(accumulation buffer, open messageId, streaming display) is left unchanged
rather than cleared, so no partial message enters the finalized list. -/
theorem claim5_amended_run_error (now : Nat) (st : ClientState) (ed : EventData)
    (htype : ed.type = "RUN_ERROR") :
    (sendMessageStep now st ed).messages = st.messages ++
      [⟨"assistant", "Error: " ++ ed.message.getD "undefined", JsId.num now⟩] ∧
    (sendMessageStep now st ed).assistantMessage = st.assistantMessage ∧
    (sendMessageStep now st ed).currentStreaming = st.currentStreaming ∧
    (sendMessageStep now st ed).messageId = st.messageId := by
  simp [sendMessageStep, htype]

/-- Witness for `claim5_amended_run_error` at a concrete Streaming state
and the event `RunError{message:"boom"}`. -/
theorem claim5_witness :
    (sendMessageStep 7 ⟨[], "fli", some "m9", "fli"⟩
        ⟨"RUN_ERROR", none, none, none, some "boom"⟩).messages =
      [] ++ [⟨"assistant", "Error: " ++ ((some "boom").getD "undefined"), JsId.num 7⟩] :=
  (claim5_amended_run_error 7 ⟨[], "fli", some "m9", "fli"⟩
    ⟨"RUN_ERROR", none, none, none, some "boom"⟩ rfl).1

/-- Claim C9 counterexample: a TextMessageContent record whose message_id
("zzz") matches no prior TextMessageStart (the state has no open message)
is NOT ignored — its delta is appended to the accumulation buffer and shown
as the streaming text, where the claim requires the buffer unchanged. -/
theorem claim9_counterexample :
    (sendMessageStep 3 ⟨[], "", none, ""⟩
        ⟨"TEXT_MESSAGE_CONTENT", some "zzz", none, some "X", none⟩).assistantMessage
      = "X" ∧
    (sendMessageStep 3 ⟨[], "", none, ""⟩
        ⟨"TEXT_MESSAGE_CONTENT", some "zzz", none, some "X", none⟩).currentStreaming
      = "X" ∧
    ("X" : String) ≠ "" :=
  ⟨rfl, rfl, by decide⟩

/-- Claim C9 as amended: the accumulator performs no messageId check on
TextMessageContent — every Content event's delta is appended to the single
in-flight buffer and surfaced as the streaming display, regardless of its
message_id fields (including a Content with no prior Start); the finalized
message list and the recorded messageId are unchanged by a Content
event. -/
theorem claim9_amended_content_append (now : Nat) (st : ClientState) (ed : EventData)
    (htype : ed.type = "TEXT_MESSAGE_CONTENT") :
    (sendMessageStep now st ed).messages = st.messages ∧
    (sendMessageStep now st ed).assistantMessage =
      st.assistantMessage ++ ed.delta.getD "undefined" ∧
    (sendMessageStep now st ed).currentStreaming =
      st.assistantMessage ++ ed.delta.getD "undefined" ∧
    (sendMessageStep now st ed).messageId = st.messageId ∧
    (∀ mid1 mid2, sendMessageStep now st
        { ed with message_id := mid1, messageId := mid2 } = sendMessageStep now st ed) := by
  refine ⟨?_, ?_, ?_, ?_, ?_⟩ <;>
    simp [sendMessageStep, htype, jsConcat]

/-- Witness for `claim9_amended_content_append`: a Content record with an
unknown message_id and no open message still appends its delta. -/
theorem claim9_witness :
    (sendMessageStep 3 ⟨[], "", none, ""⟩
        ⟨"TEXT_MESSAGE_CONTENT", some "nobody", none, some "Y", none⟩).assistantMessage
      = "" ++ ((some "Y" : Option String).getD "undefined") :=
  (claim9_amended_content_append 3 ⟨[], "", none, ""⟩
    ⟨"TEXT_MESSAGE_CONTENT", some "nobody", none, some "Y", none⟩ rfl).2.1

/-- Claim C10: a record tagged TEXT_MESSAGE_CHUNK is handled exactly like
TEXT_MESSAGE_CONTENT — the whole resulting state is identical to the state
the same record would produce under the CONTENT tag; in particular the
delta is appended to the in-flight assistant message and the streaming
display is updated to the extended buffer, and the finalized list is
untouched. -/
theorem claim10_chunk_equals_content (now : Nat) (st : ClientState) (ed : EventData)
    (htype : ed.type = "TEXT_MESSAGE_CHUNK") :
    sendMessageStep now st ed =
      sendMessageStep now st { ed with type := "TEXT_MESSAGE_CONTENT" } ∧
    (sendMessageStep now st ed).assistantMessage =
      st.assistantMessage ++ ed.delta.getD "undefined" ∧
    (sendMessageStep now st ed).currentStreaming =
      st.assistantMessage ++ ed.delta.getD "undefined" ∧
    (sendMessageStep now st ed).messages = st.messages := by
  refine ⟨?_, ?_, ?_, ?_⟩ <;>
    simp [sendMessageStep, htype, jsConcat]

/-- Witness for `claim10_chunk_equals_content` at a concrete state and a
concrete TEXT_MESSAGE_CHUNK record. -/
theorem claim10_witness :
    sendMessageStep 4 ⟨[], "a", some "m1", "a"⟩
        ⟨"TEXT_MESSAGE_CHUNK", some "m1", none, some "b", none⟩ =
      sendMessageStep 4 ⟨[], "a", some "m1", "a"⟩
        { (⟨"TEXT_MESSAGE_CHUNK", some "m1", none, some "b", none⟩ : EventData) with
            type := "TEXT_MESSAGE_CONTENT" } :=
  (claim10_chunk_equals_content 4 ⟨[], "a", some "m1", "a"⟩
    ⟨"TEXT_MESSAGE_CHUNK", some "m1", none, some "b", none⟩ rfl).1

/-- Claim C7 counterexample: with two user entries in the message list,
the endpoint passes the content of the FIRST one ("first question") to the
run producer, not the content of the most recent (last) one ("second
question") as the claim states. -/
theorem claim7_counterexample :
    find_user_message
        [⟨"user", some "first question"⟩, ⟨"assistant", some "answer"⟩,
         ⟨"user", some "second question"⟩] = some "first question" ∧
    ("first question" : String) ≠ "second question" :=
  ⟨rfl, by decide⟩

/-- Claim C7 as amended: the input candidate handed to the Run Producer is
the content of the EARLIEST (first) entry with role "user" in the request's
message list (missing content defaulting to the empty string), not the most
recent one — the extraction loop breaks at the first match. -/
theorem claim7_amended_first_user (msgs : List ReqMsg) :
    find_user_message msgs =
      (msgs.find? (fun m => m.role == "user")).map (fun m => m.content.getD "") := by
  induction msgs with
  | nil => rfl
  | cons m rest ih =>
    by_cases h : m.role = "user"
    · simp [find_user_message, List.find?, h]
    · have hb : (m.role == "user") = false := by simp [h]
      simp [find_user_message, List.find?, h, hb, ih]

/-- Claim C8 counterexample: the request whose message list is the single
entry `{role:"user", content:""}` contains a user-role entry, yet the
endpoint rejects it with the validation error (`if not user_message`
treats the empty content as missing), so "rejects iff no user-role entry
exists" fails in the right-to-left direction. -/
theorem claim8_counterexample :
    rejects_request [⟨"user", some ""⟩] = true ∧
    rejects_request [⟨"user", some ""⟩, ⟨"user", some "hi"⟩] = true ∧
    (⟨"user", some ""⟩ : ReqMsg).role = "user" :=
  ⟨rfl, rfl, rfl⟩

/-- Claim C8 as amended: the endpoint rejects the request with the
validation error if and only if the first-user-entry scan yields nothing or
yields an empty content (no user-role entry at all, or the first user-role
entry has empty or missing content — even when a later user entry has
non-empty content); the stream is opened exactly when the scan yields a
non-empty content. -/
theorem claim8_amended_reject_iff (msgs : List ReqMsg) :
    (rejects_request msgs = true ↔
      (find_user_message msgs = none ∨ find_user_message msgs = some "")) ∧
    (rejects_request msgs = false ↔
      ∃ c, find_user_message msgs = some c ∧ c ≠ "") := by
  cases h : find_user_message msgs with
  | none => simp [rejects_request, h]
  | some c =>
    by_cases hc : c = "" <;> simp [rejects_request, h, hc]

/-- Claim C6, evaluated at the failing input: a request body that omits
`run_id` (here with `thread_id` also omitted), with the two independent
`uuid.uuid4().hex[:8]` draws "11111111" and "22222222". The RunStarted
event carries runId "run-11111111" while the RunFinished event of the very
same run carries "run-22222222" — `body.get("run_id", f"run-...")` is
re-evaluated with a fresh uuid at the RunFinished emission, so the two ids
differ whenever the draws differ. When the request does supply `run_id`,
both events carry it, as the last conjunct shows. -/
theorem claim6_run_id_bug :
    (generate_events ⟨none, none⟩ "11111111" "abcd1234" "22222222"
        (PyVal.str "ok") none).head? =
      some (Event.runStarted "default" "run-11111111") ∧
    (generate_events ⟨none, none⟩ "11111111" "abcd1234" "22222222"
        (PyVal.str "ok") none).getLast? =
      some (Event.runFinished "default" "run-22222222") ∧
    ("run-11111111" : String) ≠ "run-22222222" ∧
    ∀ r : String,
      generate_events ⟨none, some r⟩ "11111111" "abcd1234" "22222222"
          (PyVal.str "ok") none =
        producer_events "default" r "msg-abcd1234" "ok" "default" r :=
  ⟨rfl, by decide, by decide, fun r => rfl⟩

/-- Claim C3 counterexample: for the result `{"summary": {}, "error":
"boom"}` the code takes the structured-summary branch purely because the
summary is a dict — the nested summary field is absent, so it yields the
fallback "No summary available" — while the claim's precedence (nested
branch only when the nested summary field exists, flat branch only for a
flat summary) yields "Error: boom". -/
theorem claim3_counterexample :
    extract_response_text
        (PyVal.dict [("summary", PyVal.dict []), ("error", PyVal.str "boom")]) =
      "No summary available" ∧
    spec_response_text
        (PyVal.dict [("summary", PyVal.dict []), ("error", PyVal.str "boom")]) =
      "Error: boom" ∧
    ("No summary available" : String) ≠ "Error: boom" :=
  ⟨rfl, rfl, by decide⟩

/-- Claim C3 as amended: the exact precedence of the code is: if the
result is a dict whose "summary" value is itself a dict, use that inner
dict's "summary" value (coerced to a string), or the fixed fallback text
"No summary available" when the inner field is absent; else if the result
carries a "summary" value of any other shape, use it coerced to a string;
else if it carries an "error" value, format it as "Error: <error>"; else
serialize the whole dict as indented JSON; a non-dict result is rendered
with `str`. The derived value is a string in every case. -/
theorem claim3_amended_extraction (es : List (String × PyVal)) :
    (∀ inner v, dictGet es "summary" = some (PyVal.dict inner) →
        dictGet inner "summary" = some v →
        extract_response_text (PyVal.dict es) = pyStr v) ∧
    (∀ inner, dictGet es "summary" = some (PyVal.dict inner) →
        dictGet inner "summary" = none →
        extract_response_text (PyVal.dict es) = "No summary available") ∧
    (∀ s, dictGet es "summary" = some (PyVal.str s) →
        extract_response_text (PyVal.dict es) = s) ∧
    (∀ n, dictGet es "summary" = some (PyVal.int n) →
        extract_response_text (PyVal.dict es) = toString n) ∧
    (∀ e, dictGet es "summary" = none → dictGet es "error" = some e →
        extract_response_text (PyVal.dict es) = "Error: " ++ pyStr e) ∧
    (dictGet es "summary" = none → dictGet es "error" = none →
        extract_response_text (PyVal.dict es) = jsonDumps (PyVal.dict es)) ∧
    (∀ s, extract_response_text (PyVal.str s) = s) ∧
    (∀ n, extract_response_text (PyVal.int n) = toString n) := by
  refine ⟨?_, ?_, ?_, ?_, ?_, ?_, fun s => rfl, fun n => rfl⟩
  · intro inner v h1 h2
    simp [extract_response_text, dict_response_text, summary_text, h1, h2]
  · intro inner h1 h2
    simp [extract_response_text, dict_response_text, summary_text, h1, h2]
  · intro s h1
    simp [extract_response_text, dict_response_text, h1, pyStr]
  · intro n h1
    simp [extract_response_text, dict_response_text, h1, pyStr]
  · intro e h1 h2
    simp [extract_response_text, dict_response_text, h1, h2]
  · intro h1 h2
    simp [extract_response_text, dict_response_text, h1, h2]

/-- Witness for `claim3_amended_extraction`: the structured-summary branch
with the nested field present, at the result
`{"summary": {"summary": "Flight on time"}}`. -/
theorem claim3_witness :
    extract_response_text
        (PyVal.dict [("summary", PyVal.dict [("summary", PyVal.str "Flight on time")])]) =
      pyStr (PyVal.str "Flight on time") :=
  (claim3_amended_extraction
      [("summary", PyVal.dict [("summary", PyVal.str "Flight on time")])]).1
    [("summary", PyVal.str "Flight on time")] (PyVal.str "Flight on time") rfl rfl

/-- A token of Python `split()` followed by a single space is never the
empty string. -/
theorem append_space_ne_empty (w : String) : w ++ " " ≠ "" := by
  intro h
  have hl : (w ++ " ").length = ("" : String).length := congrArg String.length h
  rw [String.length_append] at hl
  simp at hl
  exact absurd hl.2 (by decide)

/-- The word-streaming loop emits exactly the map of the token list: one
TextMessageContent per token, in order, delta `token + " "` (the `if
response_text` guard is redundant for the empty string, whose token list is
already empty). -/
theorem contentEvents_eq_map (msgId text : String) :
    contentEvents msgId text =
      (pySplit text).map (fun w => Event.textMessageContent msgId (w ++ " ")) := by
  by_cases h : text = ""
  · subst h; rfl
  · simp [contentEvents, h]

/-- Every element of a successful run's event sequence is one of the five
emitted shapes, with every content delta of the form `token + " "`. -/
theorem mem_producer_events {t1 r1 msgId text t2 r2 : String} {e : Event}
    (he : e ∈ producer_events t1 r1 msgId text t2 r2) :
    e = Event.runStarted t1 r1 ∨ e = Event.textMessageStart msgId "assistant" ∨
    (∃ w, e = Event.textMessageContent msgId (w ++ " ")) ∨
    e = Event.textMessageEnd msgId ∨ e = Event.runFinished t2 r2 := by
  rw [producer_events, contentEvents_eq_map] at he
  simp only [List.mem_cons, List.mem_append, List.mem_map, List.mem_singleton,
    List.not_mem_nil, or_false] at he
  rcases he with h | h | ⟨w, hw, h⟩ | h | h
  · exact Or.inl h
  · exact Or.inr (Or.inl h)
  · exact Or.inr (Or.inr (Or.inl ⟨w, h.symm⟩))
  · exact Or.inr (Or.inr (Or.inr (Or.inl h)))
  · exact Or.inr (Or.inr (Or.inr (Or.inr h)))

/-- The last element of a list extended by one element. -/
theorem getLast?_append_singleton (l : List Event) (a : Event) :
    (l ++ [a]).getLast? = some a := by
  simp [List.getLast?_concat]

/-- The successful sequence written as something concatenated with its
final RunFinished event. -/
theorem producer_events_concat (t1 r1 msgId text t2 r2 : String) :
    producer_events t1 r1 msgId text t2 r2 =
      (Event.runStarted t1 r1 :: Event.textMessageStart msgId "assistant" ::
        (contentEvents msgId text ++ [Event.textMessageEnd msgId])) ++
        [Event.runFinished t2 r2] := by
  simp [producer_events]

/-- Claim C4: for every response text the producer emits one
TextMessageContent event per whitespace-separated token, in token order,
each with delta equal to the token followed by a single space — hence every
emitted delta is non-empty — and for the empty response text no
TextMessageContent event is emitted: TextMessageStart is followed directly
by TextMessageEnd. -/
theorem claim4_token_streaming (t1 r1 msgId text t2 r2 : String) :
    contentEvents msgId text =
      (pySplit text).map (fun w => Event.textMessageContent msgId (w ++ " ")) ∧
    (∀ e ∈ contentEvents msgId text, ∃ w, w ∈ pySplit text ∧
        e = Event.textMessageContent msgId (w ++ " ") ∧ w ++ " " ≠ "") ∧
    producer_events t1 r1 msgId "" t2 r2 =
      [Event.runStarted t1 r1, Event.textMessageStart msgId "assistant",
       Event.textMessageEnd msgId, Event.runFinished t2 r2] := by
  refine ⟨contentEvents_eq_map msgId text, ?_, rfl⟩
  intro e he
  rw [contentEvents_eq_map] at he
  simp only [List.mem_map] at he
  rcases he with ⟨w, hw, hc⟩
  exact ⟨w, hw, hc.symm, append_space_ne_empty w⟩

/-- Witness for `claim4_token_streaming` at the text "hi there": the event
with delta "hi " is among the content events and arises from the token
"hi". -/
theorem claim4_witness :
    contentEvents "m1" "hi there" =
      (pySplit "hi there").map (fun w => Event.textMessageContent "m1" (w ++ " ")) ∧
    ∃ w, w ∈ pySplit "hi there" ∧
        Event.textMessageContent "m1" "hi " = Event.textMessageContent "m1" (w ++ " ") ∧
        w ++ " " ≠ "" :=
  ⟨(claim4_token_streaming "t" "r" "m1" "hi there" "t" "r").1,
   (claim4_token_streaming "t" "r" "m1" "hi there" "t" "r").2.1
     (Event.textMessageContent "m1" "hi ") (by decide)⟩

/-- Claim C1: the event sequence of one run is, with no fault, exactly
`RunStarted, TextMessageStart, TextMessageContent*, TextMessageEnd,
RunFinished` (the complete sequence, ending in RunFinished); with a fault
at position k it is the length-k prefix of that sequence followed by
exactly one RunError which is the final event (the prefix contains no
RunError); and every TextMessageContent and TextMessageEnd in the sequence
carries the messageId introduced by the unique TextMessageStart. -/
theorem claim1_event_sequence (t1 r1 msgId text t2 r2 : String)
    (fault : Option (Nat × String)) :
    (fault = none → ∃ deltas : List String,
        run_events t1 r1 msgId text t2 r2 fault =
          Event.runStarted t1 r1 :: Event.textMessageStart msgId "assistant" ::
            (deltas.map (Event.textMessageContent msgId) ++
              [Event.textMessageEnd msgId, Event.runFinished t2 r2])) ∧
    (fault = none → (run_events t1 r1 msgId text t2 r2 fault).getLast? =
        some (Event.runFinished t2 r2)) ∧
    (∀ k msg, fault = some (k, msg) →
        run_events t1 r1 msgId text t2 r2 fault =
          (producer_events t1 r1 msgId text t2 r2).take k ++ [Event.runError msg] ∧
        (run_events t1 r1 msgId text t2 r2 fault).getLast? =
          some (Event.runError msg) ∧
        (producer_events t1 r1 msgId text t2 r2).take k <+:
          producer_events t1 r1 msgId text t2 r2 ∧
        ∀ m2, Event.runError m2 ∉ (producer_events t1 r1 msgId text t2 r2).take k) ∧
    (∀ mid d, Event.textMessageContent mid d ∈ run_events t1 r1 msgId text t2 r2 fault →
        mid = msgId) ∧
    (∀ mid, Event.textMessageEnd mid ∈ run_events t1 r1 msgId text t2 r2 fault →
        mid = msgId) := by
  have hmem : ∀ e ∈ run_events t1 r1 msgId text t2 r2 fault,
      e ∈ producer_events t1 r1 msgId text t2 r2 ∨ ∃ m2, e = Event.runError m2 := by
    intro e he
    match fault with
    | none => exact Or.inl he
    | some (k, msg) =>
      rw [run_events, List.mem_append] at he
      rcases he with h | h
      · exact Or.inl (List.mem_of_mem_take h)
      · simp at h
        exact Or.inr ⟨msg, h⟩
  refine ⟨?_, ?_, ?_, ?_, ?_⟩
  · intro hf; subst hf
    refine ⟨(pySplit text).map (fun w => w ++ " "), ?_⟩
    simp [run_events, producer_events, contentEvents_eq_map, List.map_map,
      Function.comp]
  · intro hf; subst hf
    show (producer_events t1 r1 msgId text t2 r2).getLast? = _
    rw [producer_events_concat, getLast?_append_singleton]
  · intro k msg hf; subst hf
    refine ⟨rfl, ?_, List.take_prefix k _, ?_⟩
    · exact getLast?_append_singleton _ _
    · intro m2 hm
      rcases mem_producer_events (List.mem_of_mem_take hm) with
        h | h | ⟨w, h⟩ | h | h <;> simp at h
  · intro mid d hmid
    rcases hmem _ hmid with h | ⟨m2, h⟩
    · rcases mem_producer_events h with h1 | h1 | ⟨w, h1⟩ | h1 | h1 <;> injection h1
    · simp at h
  · intro mid hmid
    rcases hmem _ hmid with h | ⟨m2, h⟩
    · rcases mem_producer_events h with h1 | h1 | ⟨w, h1⟩ | h1 | h1 <;> injection h1
    · simp at h

/-- Witness for `claim1_event_sequence`: the run
`(default, r1, m1, "hi there")`, once fault-free (full successful
sequence) and once with a fault before the third yield (two events then a
single RunError). -/
theorem claim1_witness :
    (∃ deltas : List String,
        run_events "default" "r1" "m1" "hi there" "default" "r1" none =
          Event.runStarted "default" "r1" :: Event.textMessageStart "m1" "assistant" ::
            (deltas.map (Event.textMessageContent "m1") ++
              [Event.textMessageEnd "m1", Event.runFinished "default" "r1"])) ∧
    run_events "default" "r1" "m1" "hi there" "default" "r1" (some (2, "boom")) =
      (producer_events "default" "r1" "m1" "hi there" "default" "r1").take 2 ++
        [Event.runError "boom"] ∧
    ("m1" : String) = "m1" :=
  ⟨(claim1_event_sequence "default" "r1" "m1" "hi there" "default" "r1" none).1 rfl,
   ((claim1_event_sequence "default" "r1" "m1" "hi there" "default" "r1"
      (some (2, "boom"))).2.2.1 2 "boom" rfl).1,
   (claim1_event_sequence "default" "r1" "m1" "hi there" "default" "r1" none).2.2.2.1
     "m1" "hi " (by decide)⟩

/-! ### Decoder fragmentation invariance (claim C2) -/

/-- Splitting at a separator character. -/
theorem splitRecords_cons_sep (p : Char → Bool) (c : Char) (rest : List Char)
    (hc : p c = true) :
    splitRecords p (c :: rest) =
      ([] :: (splitRecords p rest).1, (splitRecords p rest).2) := by
  simp [splitRecords, hc]

/-- Splitting at a non-separator when no complete piece follows. -/
theorem splitRecords_cons_nosep_nil (p : Char → Bool) (c : Char) (rest : List Char)
    (hc : p c = false) (h1 : (splitRecords p rest).1 = []) :
    splitRecords p (c :: rest) = ([], c :: (splitRecords p rest).2) := by
  simp [splitRecords, hc, h1]

/-- Splitting at a non-separator when a complete piece follows. -/
theorem splitRecords_cons_nosep_cons (p : Char → Bool) (c : Char) (rest : List Char)
    (a : List Char) (as : List (List Char))
    (hc : p c = false) (h1 : (splitRecords p rest).1 = a :: as) :
    splitRecords p (c :: rest) = ((c :: a) :: as, (splitRecords p rest).2) := by
  simp [splitRecords, hc, h1]

/-- A separator-free text is a single (still incomplete) piece. -/
theorem splitRecords_no_sep (p : Char → Bool) (s : List Char)
    (h : ∀ c ∈ s, p c = false) : splitRecords p s = ([], s) := by
  induction s with
  | nil => rfl
  | cons c rest ih =>
    have hc : p c = false := h c (List.mem_cons_self c rest)
    have hrest := ih (fun d hd => h d (List.mem_cons_of_mem c hd))
    rw [splitRecords_cons_nosep_nil p c rest hc (by rw [hrest]), hrest]

/-- The final piece of a split contains no separator. -/
theorem splitRecords_snd_no_sep (p : Char → Bool) (s : List Char) :
    ∀ c ∈ (splitRecords p s).2, p c = false := by
  induction s with
  | nil => intro c hc; simp [splitRecords] at hc
  | cons a rest ih =>
    intro c hc
    by_cases ha : p a = true
    · rw [splitRecords_cons_sep p a rest ha] at hc
      exact ih c hc
    · have ha' : p a = false := by
        cases hpa : p a
        · rfl
        · exact absurd hpa ha
      rcases hA : (splitRecords p rest).1 with _ | ⟨q, qs⟩
      · rw [splitRecords_cons_nosep_nil p a rest ha' hA] at hc
        rcases List.mem_cons.mp hc with h1 | h1
        · subst h1; exact ha'
        · exact ih c h1
      · rw [splitRecords_cons_nosep_cons p a rest q qs ha' hA] at hc
        exact ih c hc

/-- How a split decomposes over concatenation: the complete pieces of
`x ++ y` are the complete pieces of `x` followed by the complete pieces of
the final piece of `x` prepended to `y`, and the final pieces agree. This
is the heart of the decoder's fragmentation invariance. -/
theorem splitRecords_append (p : Char → Bool) (x y : List Char) :
    splitRecords p (x ++ y) =
      ((splitRecords p x).1 ++ (splitRecords p ((splitRecords p x).2 ++ y)).1,
        (splitRecords p ((splitRecords p x).2 ++ y)).2) := by
  induction x with
  | nil => simp [splitRecords]
  | cons c x ih =>
    rw [List.cons_append]
    by_cases hc : p c = true
    · rw [splitRecords_cons_sep p c (x ++ y) hc, splitRecords_cons_sep p c x hc, ih]
      simp
    · have hc' : p c = false := by
        cases hpc : p c
        · rfl
        · exact absurd hpc hc
      rcases hA : (splitRecords p x).1 with _ | ⟨a, as⟩
      · rcases hB : (splitRecords p ((splitRecords p x).2 ++ y)).1 with _ | ⟨b, bs⟩
        · have hxy : (splitRecords p (x ++ y)).1 = [] := by
            rw [ih]; simp [hA, hB]
          rw [splitRecords_cons_nosep_nil p c (x ++ y) hc' hxy,
              splitRecords_cons_nosep_nil p c x hc' hA]
          simp only [List.cons_append, List.nil_append]
          rw [splitRecords_cons_nosep_nil p c ((splitRecords p x).2 ++ y) hc' hB,
              ih]
        · have hxy : (splitRecords p (x ++ y)).1 = b :: bs := by
            rw [ih]; simp [hA, hB]
          rw [splitRecords_cons_nosep_cons p c (x ++ y) b bs hc' hxy,
              splitRecords_cons_nosep_nil p c x hc' hA]
          simp only [List.cons_append, List.nil_append]
          rw [splitRecords_cons_nosep_cons p c ((splitRecords p x).2 ++ y) b bs hc' hB,
              ih]
      · have hxy : (splitRecords p (x ++ y)).1 =
            a :: (as ++ (splitRecords p ((splitRecords p x).2 ++ y)).1) := by
          rw [ih]; simp [hA]
        rw [splitRecords_cons_nosep_cons p c (x ++ y) _ _ hc' hxy,
            splitRecords_cons_nosep_cons p c x a as hc' hA, ih]
        simp

/-- The client's chunk fold equals one split of the whole concatenated
text: starting from a separator-free buffer, folding any chunk list leaves
as buffer the final piece of `buffer ++ concatenation` and appends to the
output exactly its complete pieces. -/
theorem foldl_feedChunk (chunks : List (List Char)) (buf : List Char)
    (acc : List (List Char)) (hbuf : ∀ c ∈ buf, isNl c = false) :
    chunks.foldl feedChunk (buf, acc) =
      ((splitRecords isNl (buf ++ chunks.flatten)).2,
        acc ++ (splitRecords isNl (buf ++ chunks.flatten)).1) := by
  induction chunks generalizing buf acc with
  | nil =>
    simp [splitRecords_no_sep isNl buf hbuf]
  | cons ch chs ih =>
    rw [List.foldl_cons,
      show feedChunk (buf, acc) ch =
        ((splitRecords isNl (buf ++ ch)).2,
          acc ++ (splitRecords isNl (buf ++ ch)).1) from rfl,
      ih _ _ (splitRecords_snd_no_sep isNl (buf ++ ch)),
      List.flatten_cons, ← List.append_assoc,
      splitRecords_append isNl (buf ++ ch) chs.flatten]
    simp

/-- The decoder's output depends only on the concatenation of the chunks. -/
theorem decodeStream_eq (chunks : List (List Char)) :
    decodeStream chunks =
      ((splitRecords isNl chunks.flatten).2, (splitRecords isNl chunks.flatten).1) := by
  rw [decodeStream, foldl_feedChunk chunks [] [] (by intro c hc; simp at hc)]
  simp

/-- Claim C2: the stream decoder (single buffer, append each chunk, split
on the newline record terminator, every piece but the last a complete
candidate record, last piece the new buffer) is invariant under
fragmentation — any two chunkings of the same wire text produce the
identical complete-record list, hence the identical `data: `-payload list,
hence the identical decoded event sequence for every per-record parse
function. -/
theorem claim2_fragmentation_invariance (chunks1 chunks2 : List (List Char))
    (h : chunks1.flatten = chunks2.flatten) :
    completeLines chunks1 = (splitRecords isNl chunks1.flatten).1 ∧
    completeLines chunks1 = completeLines chunks2 ∧
    dataRecords chunks1 = dataRecords chunks2 ∧
    ∀ (α : Type) (parse : List Char → Option α),
      (dataRecords chunks1).filterMap parse = (dataRecords chunks2).filterMap parse := by
  have h1 : completeLines chunks1 = (splitRecords isNl chunks1.flatten).1 := by
    rw [completeLines, decodeStream_eq]
  have h2 : completeLines chunks2 = (splitRecords isNl chunks2.flatten).1 := by
    rw [completeLines, decodeStream_eq]
  have h12 : completeLines chunks1 = completeLines chunks2 := by
    rw [h1, h2, h]
  have h3 : dataRecords chunks1 = dataRecords chunks2 := by
    rw [dataRecords, dataRecords, h12]
  exact ⟨h1, h12, h3, fun α parse => by rw [h3]⟩

/-- Witness for `claim2_fragmentation_invariance`: the wire text
`"data: x\ndata: y\nz"` split mid-record into two chunks versus delivered
as one chunk decodes to the same records, namely the payloads `x` and `y`
(the dangling `z` stays in the buffer). -/
theorem claim2_witness :
    dataRecords [['d','a','t','a',':',' ','x','\n','d','a'],
        ['t','a',':',' ','y','\n','z']] =
      dataRecords [['d','a','t','a',':',' ','x','\n','d','a','t','a',':',' ','y','\n','z']] ∧
    dataRecords [['d','a','t','a',':',' ','x','\n','d','a'],
        ['t','a',':',' ','y','\n','z']] = [['x'], ['y']] :=
  ⟨(claim2_fragmentation_invariance
      [['d','a','t','a',':',' ','x','\n','d','a'], ['t','a',':',' ','y','\n','z']]
      [['d','a','t','a',':',' ','x','\n','d','a','t','a',':',' ','y','\n','z']]
      (by decide)).2.2.1,
   by decide⟩

end AgUi
